import Mathlib

/-!
Verification of the Q5D unified multi-agent trading system
(`unified_agent` Python script): indicator pipeline, the four trading
agents, and the consensus engine.

Modelling conventions:
* Python floats are modelled as exact rationals (`ℚ`).
* Python `round(x, n)` (banker's rounding) is `pyRound2` / `pyRound1`;
  the f-string format `{x:.0f}` is `fmtF0`.
* Python truthiness on optional floats/strings (`bar.atr or 5`,
  `if bar.geo_level:`, ...) is modelled by `pyOr`, `optTruthy`,
  `strTruthy`: `None`, `0.0` and `""` are falsy.
* `math.sqrt` is not computable on `ℚ`; the Gann-level pass takes the
  square-root function as an explicit parameter `sqrtFn`, and theorems
  that genuinely depend on it carry hypotheses characterising the
  square root.  Concrete runs instantiate it on inputs where the exact
  root is rational, or where the claim at hand does not read the Gann
  fields.
* The in-place mutation of `Bar` objects is modelled by pure passes
  `List Bar → List Bar`; every pass only reads fields that no pass
  mutates before writing (closes, highs, lows) or fields written by an
  earlier pass, so reading from the pass input list is faithful.
-/

namespace Q5D

/-- Python `x or d` for an optional float: `None` and `0.0` are falsy. -/
def pyOr (o : Option ℚ) (d : ℚ) : ℚ :=
  match o with
  | none => d
  | some x => if x = 0 then d else x

/-- Python truthiness of an optional float (`if bar.gann_support:`). -/
def optTruthy (o : Option ℚ) : Bool :=
  match o with
  | none => false
  | some x => decide (x ≠ 0)

/-- Python truthiness of an optional string (`if bar.wave_position:`). -/
def strTruthy (o : Option String) : Bool :=
  match o with
  | none => false
  | some s => decide (s ≠ "")

/-- The string contents of an optional string, `""` when absent. -/
def optStr (o : Option String) : String := o.getD ""

/-- `leadsList n l` : the list `n` is an initial segment of `l`. -/
def leadsList : List Char → List Char → Bool
  | [], _ => true
  | _ :: _, [] => false
  | a :: t, b :: u => a = b && leadsList t u

/-- `occursIn n l` : the list `n` occurs contiguously inside `l`
(Python's `needle in haystack` on strings). -/
def occursIn (n : List Char) : List Char → Bool
  | [] => leadsList n []
  | c :: t => leadsList n (c :: t) || occursIn n t

/-- Python `needle in hay` for strings. -/
def containsStr (hay needle : String) : Bool :=
  occursIn needle.data hay.data

/-- Round to the nearest integer, ties to even (Python's `round` /
`float.__round__` tie-breaking). -/
def roundHE (x : ℚ) : ℤ :=
  let n := ⌊x⌋
  let f := x - n
  if f < 1/2 then n
  else if 1/2 < f then n + 1
  else if n % 2 = 0 then n else n + 1

/-- Python `round(x, 2)`. -/
def pyRound2 (x : ℚ) : ℚ := (roundHE (x * 100) : ℚ) / 100

/-- Python `round(x, 1)`. -/
def pyRound1 (x : ℚ) : ℚ := (roundHE (x * 10) : ℚ) / 10

/-- Python `f"{x:.0f}"`. -/
def fmtF0 (x : ℚ) : String := toString (roundHE x)

/-- Python `max(list)` on a list of floats (0 on the empty list, which
the source never hits). -/
def maxList (l : List ℚ) : ℚ :=
  match l with
  | [] => 0
  | a :: t => t.foldl max a

/-- Python `min(list)`. -/
def minList (l : List ℚ) : ℚ :=
  match l with
  | [] => 0
  | a :: t => t.foldl min a

/-- Python `list.index(x)`: index of the first occurrence of `x`. -/
def idxOfQ : List ℚ → ℚ → ℕ
  | [], _ => 0
  | a :: t, x => if a = x then 0 else idxOfQ t x + 1

/-- Python `min(levels, key=lambda x: abs(x - price))`: first element
with minimal distance to `price`; `none` on the empty list. -/
def minByAbs (price : ℚ) (l : List ℚ) : Option ℚ :=
  match l with
  | [] => none
  | a :: t => some (t.foldl (fun best x =>
      if |x - price| < |best - price| then x else best) a)

/-- The Gann cycles (trading days), `GANN_CYCLES` in the source. -/
def GANN_CYCLES : List ℕ := [11, 22, 34, 45, 56, 67, 78, 90]

/-- `ATR_LENGTH` in the source. -/
def ATR_LENGTH : ℕ := 14

/-- `FAST_SMA_LEN` in the source. -/
def FAST_SMA_LEN : ℕ := 10

/-- `SLOW_SMA_LEN` in the source. -/
def SLOW_SMA_LEN : ℕ := 20

/-- `RSI_LENGTH` in the source. -/
def RSI_LENGTH : ℕ := 14

/-- `PRICE_TOL_PCT` in the source. -/
def PRICE_TOL_PCT : ℚ := 8/1000

/-- Daily OHLCV bar with indicator fields (the `Bar` dataclass). -/
structure Bar where
  date : String := ""
  open_ : ℚ := 0
  high : ℚ := 0
  low : ℚ := 0
  close : ℚ := 0
  volume : ℚ := 0
  atr : Option ℚ := none
  fast_sma : Option ℚ := none
  slow_sma : Option ℚ := none
  rsi : Option ℚ := none
  bias : Option String := none
  geo_level : Option ℚ := none
  phi_level : Option ℚ := none
  price_confluence : ℕ := 0
  time_confluence : ℕ := 0
  gann_support : Option ℚ := none
  gann_resistance : Option ℚ := none
  wave_position : Option String := none
deriving DecidableEq

instance : Inhabited Bar := ⟨{}⟩

/-- Signal from a single agent (the `AgentSignal` dataclass). -/
structure AgentSignal where
  agent_name : String
  signal : String
  confidence : ℚ
  entry : ℚ
  stop : ℚ
  target1 : ℚ
  target2 : ℚ
  reasons : List String
deriving DecidableEq

/-- Result of multi-agent consensus voting (the `ConsensusResult`
dataclass). -/
structure ConsensusResult where
  date : String
  symbol : String
  signals : List AgentSignal
  call_votes : ℕ
  put_votes : ℕ
  hold_votes : ℕ
  consensus : String
  confluence_level : String
  confidence : ℚ
  entry : ℚ
  stop : ℚ
  target1 : ℚ
  target2 : ℚ
  target3 : ℚ
  approved : Bool
deriving DecidableEq

/-- Indexed map over a bar list: models the source's
`for i, bar in enumerate(bars)` loops that assign fields per index. -/
def mapWith (f : ℕ → Bar → Bar) (bars : List Bar) : List Bar :=
  (List.range bars.length).map (fun i => f i (bars.getD i default))

/-- True range of bar `j` (`compute_atr`'s inner loop body). -/
def trAt (bars : List Bar) (j : ℕ) : ℚ :=
  let b := bars.getD j default
  let close_prev := if j = 0 then b.close else (bars.getD (j - 1) default).close
  max (b.high - b.low) (max |b.high - close_prev| |b.low - close_prev|)

/-- `compute_atr`: trailing average true range; `None` for the first
`length` bars. -/
def compute_atr (bars : List Bar) (length : ℕ) : List Bar :=
  mapWith (fun i b =>
    if i < length then { b with atr := none }
    else
      let trs := (List.range length).map (fun t => trAt bars (i + 1 - length + t))
      { b with atr := some (trs.sum / (trs.length : ℚ)) }) bars

/-- `compute_sma`: simple moving average per index, `None` until
`length - 1` prior bars exist. -/
def compute_sma (bars : List Bar) (length : ℕ) : List (Option ℚ) :=
  (List.range bars.length).map (fun i =>
    if i < length - 1 then none
    else some (((List.range length).map
        (fun t => (bars.getD (i + 1 - length + t) default).close)).sum / (length : ℚ)))

/-- The `process_indicators` step that zips the two SMA lists onto the
bars (`b.fast_sma = f; b.slow_sma = s`). -/
def assign_smas (bars : List Bar) : List Bar :=
  let fast := compute_sma bars FAST_SMA_LEN
  let slow := compute_sma bars SLOW_SMA_LEN
  mapWith (fun i b => { b with fast_sma := fast.getD i none,
                               slow_sma := slow.getD i none }) bars

/-- `compute_rsi`: RSI with default 50 for the first `length` bars,
100 when the window has no losses. -/
def compute_rsi (bars : List Bar) (length : ℕ) : List Bar :=
  mapWith (fun i b =>
    if i < length then { b with rsi := some 50 }
    else
      let changes := (List.range length).map (fun t =>
        let j := i + 1 - length + t
        if j = 0 then 0
        else (bars.getD j default).close - (bars.getD (j - 1) default).close)
      let gains := changes.map (fun c => if 0 < c then c else 0)
      let losses := changes.map (fun c => if 0 < c then 0 else |c|)
      let avg_gain := gains.sum / (length : ℚ)
      let avg_loss := losses.sum / (length : ℚ)
      if avg_loss = 0 then { b with rsi := some 100 }
      else { b with rsi := some (100 - 100 / (1 + avg_gain / avg_loss)) }) bars

/-- `compute_bias`: `CALL` if fast SMA > slow SMA, `PUT` otherwise;
left unset when either SMA is `None`. -/
def compute_bias (bars : List Bar) : List Bar :=
  mapWith (fun _ b =>
    match b.fast_sma, b.slow_sma with
    | some f, some s => { b with bias := some (if s < f then "CALL" else "PUT") }
    | _, _ => b) bars

/-- The five Square-of-9 increments `k*45/180`, `k = 1..5`. -/
def gannIncs : List ℚ := (List.range 5).map (fun k => (((k : ℚ) + 1) * 45) / 180)

/-- The resistance candidates `(sqrt_price + inc)**2`. -/
def resCandidates (s : ℚ) : List ℚ :=
  gannIncs.map (fun inc => (s + inc) * (s + inc))

/-- The support candidates `(sqrt_price - inc)**2`, kept only when
`sqrt_price > inc`. -/
def supCandidates (s : ℚ) : List ℚ :=
  (gannIncs.filter (fun inc => decide (inc < s))).map
    (fun inc => (s - inc) * (s - inc))

/-- `compute_gann_levels`: nearest Square-of-9 support/resistance, with
fallbacks `close*0.95` / `close*1.05` on empty candidate lists.
`sqrtFn` stands for the source's `math.sqrt`. -/
def compute_gann_levels (sqrtFn : ℚ → ℚ) (bars : List Bar) : List Bar :=
  mapWith (fun _ b =>
    let price := b.close
    let sqrt_price := sqrtFn price
    { b with
      gann_support := some (match minByAbs price (supCandidates sqrt_price) with
        | some v => v
        | none => price * (95/100)),
      gann_resistance := some (match minByAbs price (resCandidates sqrt_price) with
        | some v => v
        | none => price * (105/100)) }) bars

/-- `compute_geometric_levels`: midpoint and 0.618 retracement of the
trailing 20-bar high/low range for `i > 20`, else anchored on close. -/
def compute_geometric_levels (bars : List Bar) : List Bar :=
  mapWith (fun i b =>
    if 20 < i then
      let window := (List.range 20).map (fun t => bars.getD (i - 20 + t) default)
      let recent_high := maxList (window.map Bar.high)
      let recent_low := minList (window.map Bar.low)
      { b with geo_level := some ((recent_high + recent_low) / 2),
               phi_level := some (recent_low + (recent_high - recent_low) * (618/1000)) }
    else
      { b with geo_level := some b.close,
               phi_level := some (b.close * (618/1000)) }) bars

/-- The trailing window `bars[max(0, i-50) : i+1]` used by
`compute_wave_position` (callers have `50 ≤ i`, so the lower bound is
`i - 50`). -/
def waveWindow (bars : List Bar) (i : ℕ) : List Bar :=
  (bars.drop (i - 50)).take 51

/-- `highs.index(max(highs))` over the wave window. -/
def waveMaxIdx (bars : List Bar) (i : ℕ) : ℕ :=
  let highs := (waveWindow bars i).map Bar.high
  idxOfQ highs (maxList highs)

/-- `lows.index(min(lows))` over the wave window. -/
def waveMinIdx (bars : List Bar) (i : ℕ) : ℕ :=
  let lows := (waveWindow bars i).map Bar.low
  idxOfQ lows (minList lows)

/-- The wave label assigned to index `i` (`compute_wave_position`'s
loop body). -/
def wavePositionAt (bars : List Bar) (i : ℕ) : String :=
  if i < 50 then "Unknown"
  else
    let len : ℚ := ((waveWindow bars i).length : ℚ)
    let max_idx := waveMaxIdx bars i
    let min_idx := waveMinIdx bars i
    if min_idx < max_idx then
      if len * (8/10) < (max_idx : ℚ) then "Wave 5 UP"
      else if len * (5/10) < (max_idx : ℚ) then "Wave 3 UP"
      else "Wave 1 UP"
    else
      if len * (8/10) < (min_idx : ℚ) then "Wave 5 DOWN"
      else if len * (5/10) < (min_idx : ℚ) then "Wave 3 DOWN"
      else "Wave 2 DOWN"

/-- `compute_wave_position`: tag every bar with its wave label. -/
def compute_wave_position (bars : List Bar) : List Bar :=
  mapWith (fun i b => { b with wave_position := some (wavePositionAt bars i) }) bars

/-- The Gann-cycle proximity test of `tag_confluence` (`i` and the
cycles are non-negative, so the source's `abs(i % c) <= 2 or
abs(i % c - c) <= 2` is `i % c ≤ 2 ∨ c - i % c ≤ 2`). -/
def cycleHit (i : ℕ) : Bool :=
  GANN_CYCLES.any (fun c => decide (i % c ≤ 2) || decide (c - i % c ≤ 2))

/-- `tag_confluence`: price/time confluence flags; bars with undefined
ATR keep both flags 0 (the `continue`).  `price_tol` is accepted and
unused, as in the source. -/
def tag_confluence (bars : List Bar) (price_tol : ℚ) : List Bar :=
  mapWith (fun i b =>
    let b0 := { b with price_confluence := 0, time_confluence := 0 }
    match b.atr with
    | none => b0
    | some a =>
      let b1 :=
        match b.geo_level with
        | some g =>
          if g ≠ 0 ∧ |b.close - g| < a * (1/2)
          then { b0 with price_confluence := 1 } else b0
        | none => b0
      if cycleHit i then { b1 with time_confluence := 1 } else b1) bars

/-- `process_indicators`: the full indicator pipeline. -/
def process_indicators (sqrtFn : ℚ → ℚ) (bars : List Bar) : List Bar :=
  let b1 := compute_atr bars ATR_LENGTH
  let b2 := assign_smas b1
  let b3 := compute_rsi b2 RSI_LENGTH
  let b4 := compute_bias b3
  let b5 := compute_gann_levels sqrtFn b4
  let b6 := compute_geometric_levels b5
  let b7 := compute_wave_position b6
  tag_confluence b7 PRICE_TOL_PCT

/-- `base_confluence_agent`: SMA crossover bias + price confluence. -/
def base_confluence_agent (bar : Bar) : AgentSignal :=
  let scr : String × ℚ × List String :=
    if bar.bias = some "CALL" ∧ bar.price_confluence ≠ 0 then
      ("CALL", 65, ["SMA bullish crossover", "Near geometric level"])
    else if bar.bias = some "PUT" ∧ bar.price_confluence ≠ 0 then
      ("PUT", 65, ["SMA bearish crossover", "Near geometric level"])
    else ("HOLD", 0, [])
  let signal := scr.1
  let atr := pyOr bar.atr 5
  let entry := bar.close
  let plan : ℚ × ℚ × ℚ :=
    if signal = "CALL" then (entry - atr * (3/2), entry + atr * 2, entry + atr * 3)
    else if signal = "PUT" then (entry + atr * (3/2), entry - atr * 2, entry - atr * 3)
    else (entry, entry, entry)
  { agent_name := "Base Confluence", signal := signal, confidence := scr.2.1,
    entry := pyRound2 entry, stop := pyRound2 plan.1,
    target1 := pyRound2 plan.2.1, target2 := pyRound2 plan.2.2,
    reasons := scr.2.2 }

/-- `gann_elliott_agent`: wave position + Square-of-9 levels, with a
+5 time-confluence bonus applied to whatever confidence the trigger
left (including 0 on HOLD).  The source reads `bar.gann_support` /
`bar.gann_resistance` inside the trigger without a `None` guard (the
pipeline always assigns them, see `compute_gann_levels`); the model
reads them with `Option.getD 0` there. -/
def gann_elliott_agent (bar : Bar) : AgentSignal :=
  let scr : String × ℚ × List String :=
    if strTruthy bar.wave_position ∧ containsStr (optStr bar.wave_position) "UP" then
      (if bar.close ≤ (bar.gann_support.getD 0) * (101/100) then
        ("CALL", 72, [optStr bar.wave_position, "Near Gann support"])
       else ("HOLD", 0, []))
    else if strTruthy bar.wave_position ∧ containsStr (optStr bar.wave_position) "DOWN" then
      (if (bar.gann_resistance.getD 0) * (99/100) ≤ bar.close then
        ("PUT", 72, [optStr bar.wave_position, "Near Gann resistance"])
       else ("HOLD", 0, []))
    else ("HOLD", 0, [])
  let signal := scr.1
  let confidence := if bar.time_confluence ≠ 0 then scr.2.1 + 5 else scr.2.1
  let reasons := if bar.time_confluence ≠ 0 then scr.2.2 ++ ["Gann time cycle"] else scr.2.2
  let atr := pyOr bar.atr 5
  let entry := bar.close
  let plan : ℚ × ℚ × ℚ :=
    if signal = "CALL" then
      ((if optTruthy bar.gann_support then (bar.gann_support.getD 0) * (99/100)
        else entry - atr * (3/2)),
       (if optTruthy bar.gann_resistance then bar.gann_resistance.getD 0
        else entry + atr * 2),
       (if optTruthy bar.gann_resistance then bar.gann_resistance.getD 0
        else entry + atr * 2) * (101/100))
    else if signal = "PUT" then
      ((if optTruthy bar.gann_resistance then (bar.gann_resistance.getD 0) * (101/100)
        else entry + atr * (3/2)),
       (if optTruthy bar.gann_support then bar.gann_support.getD 0
        else entry - atr * 2),
       (if optTruthy bar.gann_support then bar.gann_support.getD 0
        else entry - atr * 2) * (99/100))
    else (entry, entry, entry)
  { agent_name := "Gann-Elliott", signal := signal, confidence := confidence,
    entry := pyRound2 entry, stop := pyRound2 plan.1,
    target1 := pyRound2 plan.2.1, target2 := pyRound2 plan.2.2,
    reasons := reasons }

/-- `dqn_momentum_agent`: RSI oversold/overbought plus momentum
confirmation; `rsi = bar.rsi or 50` treats both `None` and `0.0` as
absent. -/
def dqn_momentum_agent (bar : Bar) : AgentSignal :=
  let rsi := pyOr bar.rsi 50
  let scr : String × ℚ × List String :=
    if rsi < 30 then
      ("CALL", 71, ["RSI oversold (" ++ fmtF0 rsi ++ ")"])
    else if 70 < rsi then
      ("PUT", 71, ["RSI overbought (" ++ fmtF0 rsi ++ ")"])
    else if bar.bias = some "CALL" ∧ 50 < rsi ∧ rsi < 70 then
      ("CALL", 60, ["Bullish momentum (RSI " ++ fmtF0 rsi ++ ")"])
    else if bar.bias = some "PUT" ∧ rsi < 50 ∧ 30 < rsi then
      ("PUT", 60, ["Bearish momentum (RSI " ++ fmtF0 rsi ++ ")"])
    else ("HOLD", 0, [])
  let signal := scr.1
  let atr := pyOr bar.atr 5
  let entry := bar.close
  let plan : ℚ × ℚ × ℚ :=
    if signal = "CALL" then (entry - atr * 1, entry + atr * (3/2), entry + atr * (5/2))
    else if signal = "PUT" then (entry + atr * 1, entry - atr * (3/2), entry - atr * (5/2))
    else (entry, entry, entry)
  { agent_name := "DQN Momentum", signal := signal, confidence := scr.2.1,
    entry := pyRound2 entry, stop := pyRound2 plan.1,
    target1 := pyRound2 plan.2.1, target2 := pyRound2 plan.2.2,
    reasons := scr.2.2 }

/-- `three_wave_agent`: 0.618 retracement proximity + bias. -/
def three_wave_agent (bar : Bar) : AgentSignal :=
  let scr : String × ℚ × List String :=
    if optTruthy bar.phi_level ∧ optTruthy bar.geo_level then
      (if |bar.close - bar.phi_level.getD 0| < (pyOr bar.atr 5) * (1/2) then
        (if bar.bias = some "CALL" then
          ("CALL", 68, ["0.618 Fibonacci support", "Bullish trend continuation"])
         else if bar.bias = some "PUT" then
          ("PUT", 68, ["0.618 Fibonacci resistance", "Bearish trend continuation"])
         else ("HOLD", 0, []))
       else ("HOLD", 0, []))
    else ("HOLD", 0, [])
  let signal := scr.1
  let atr := pyOr bar.atr 5
  let entry := bar.close
  let plan : ℚ × ℚ × ℚ :=
    if signal = "CALL" then (entry - atr * (12/10), entry + atr * 2, entry + atr * (7/2))
    else if signal = "PUT" then (entry + atr * (12/10), entry - atr * 2, entry - atr * (7/2))
    else (entry, entry, entry)
  { agent_name := "3-Wave Fibonacci", signal := signal, confidence := scr.2.1,
    entry := pyRound2 entry, stop := pyRound2 plan.1,
    target1 := pyRound2 plan.2.1, target2 := pyRound2 plan.2.2,
    reasons := scr.2.2 }

/-- The four agent signals in the source's fixed order. -/
def signalsOf (bar : Bar) : List AgentSignal :=
  [base_confluence_agent bar, gann_elliott_agent bar,
   dqn_momentum_agent bar, three_wave_agent bar]

/-- `[s for s in signals if s.signal != "HOLD"]`. -/
def activeSignals (bar : Bar) : List AgentSignal :=
  (signalsOf bar).filter (fun s => decide (s.signal ≠ "HOLD"))

/-- `calculate_consensus`: run all four agents and aggregate. -/
def calculate_consensus (date symbol : String) (bar : Bar) : ConsensusResult :=
  let signals := signalsOf bar
  let call_votes := signals.countP (fun s => decide (s.signal = "CALL"))
  let put_votes := signals.countP (fun s => decide (s.signal = "PUT"))
  let hold_votes := signals.countP (fun s => decide (s.signal = "HOLD"))
  let max_votes := max call_votes (max put_votes hold_votes)
  let confluence_level :=
    if 4 ≤ max_votes then "ULTRA"
    else if 3 ≤ max_votes then "SUPER"
    else if 2 ≤ max_votes then "PARTIAL"
    else "NONE"
  let consensus :=
    if put_votes < call_votes ∧ hold_votes < call_votes then "CALL"
    else if call_votes < put_votes ∧ hold_votes < put_votes then "PUT"
    else "HOLD"
  let active := activeSignals bar
  let avg_confidence :=
    if active = [] then 0
    else (active.map AgentSignal.confidence).sum / (active.length : ℚ)
  let plan : ℚ × ℚ × ℚ × ℚ × ℚ :=
    if active = [] then (bar.close, bar.close, bar.close, bar.close, bar.close)
    else
      let entry := (active.map AgentSignal.entry).sum / (active.length : ℚ)
      let stop := (active.map AgentSignal.stop).sum / (active.length : ℚ)
      let target1 := (active.map AgentSignal.target1).sum / (active.length : ℚ)
      let target2 := (active.map AgentSignal.target2).sum / (active.length : ℚ)
      let target3 := if consensus = "CALL" then target2 * (11/10) else target2 * (9/10)
      (entry, stop, target1, target2, target3)
  { date := date, symbol := symbol, signals := signals,
    call_votes := call_votes, put_votes := put_votes, hold_votes := hold_votes,
    consensus := consensus, confluence_level := confluence_level,
    confidence := pyRound1 avg_confidence,
    entry := pyRound2 plan.1, stop := pyRound2 plan.2.1,
    target1 := pyRound2 plan.2.2.1, target2 := pyRound2 plan.2.2.2.1,
    target3 := pyRound2 plan.2.2.2.2,
    approved := decide (3 ≤ max_votes) && decide (consensus ≠ "HOLD") }

/-!
### Concrete inputs used by witnesses and counterexamples

`Rat.add`/`mul`/`sub`/`inv` are `@[irreducible]` in the library, which
blocks `decide`-style evaluation of the model on concrete inputs; they
are unsealed here (this only affects unfolding during elaboration, not
the kernel or the semantics).
-/

unseal Rat.add Rat.mul Rat.sub Rat.inv

set_option maxRecDepth 100000

/-- A flat all-100 daily bar. -/
def flatBar : Bar :=
  { date := "d", open_ := 100, high := 100, low := 100, close := 100, volume := 0 }

/-- A 20-bar flat series: every open/high/low/close is 100.00. -/
def flatBars : List Bar := List.replicate 20 flatBar

/-- The exact square root of every close in `flatBars` (all closes are
100, so the constant 10 agrees with `math.sqrt` on every input the run
uses). -/
def sqrtFlat : ℚ → ℚ := fun _ => 10

/-- The 20-bar flat series after the indicator pipeline. -/
def flatE : List Bar := process_indicators sqrtFlat flatBars

/-- A bar on which every agent trigger fails (all optional fields
unset), as the pipeline would never produce but the agents accept. -/
def holdBar : Bar := { close := 100 }

/-- A bar on which only the DQN/Momentum agent fires (RSI 75 ⇒ PUT),
with a 3-decimal ATR so that the stored (rounded) targets expose the
rounding order of `calculate_consensus`. -/
def rsiBar : Bar := { close := 100, rsi := some 75, atr := some (1111/1000) }

/-- A bar producing a 2-2 CALL/PUT tie: Base Confluence and 3-Wave
vote CALL, Gann-Elliott and DQN vote PUT. -/
def tieBar : Bar :=
  { close := 100, bias := some "CALL", price_confluence := 1, rsi := some 75,
    wave_position := some "Wave 3 DOWN", gann_resistance := some 100,
    gann_support := some 90, atr := some 4, phi_level := some 100,
    geo_level := some 100 }

/-- A bar whose time-confluence flag is set while no agent trigger
fires. -/
def cbar : Bar := { close := 100, time_confluence := 1 }

/-- A bar with RSI exactly 25. -/
def c8bar : Bar := { close := 100, rsi := some 25, atr := some 2 }

/-- A bar whose close is 100.125 (not representable in 2 decimals). -/
def mixBar : Bar :=
  { date := "d", open_ := 801/8, high := 801/8, low := 801/8, close := 801/8,
    volume := 0 }

/-- 23 bars: flat at 100 except the last close is 100.125.  Index 22
has a defined ATR and sits on the 22-day Gann cycle, so its
time-confluence flag is set. -/
def mixBars : List Bar := List.replicate 22 flatBar ++ [mixBar]

/-- `mixBars` after the indicator pipeline (the Gann `sqrtFn` values
are never read by the facts proved about this run: the bar examined
holds wave position "Unknown", so the Gann-Elliott trigger and its
level fields are not consulted). -/
def mixE : List Bar := process_indicators sqrtFlat mixBars

/-- Enriched bar 22 of the mixed series. -/
def b22 : Bar := mixE.getD 22 default

/-- A strictly decreasing 15-bar series (closes 100, 99, ..., 86):
every change in the RSI window of bar 14 is a loss, so its RSI is
exactly 0. -/
def decBar (k : ℕ) : Bar :=
  { date := "d", open_ := (100 : ℚ) - k, high := (100 : ℚ) - k,
    low := (100 : ℚ) - k, close := (100 : ℚ) - k, volume := 0 }

/-- The decreasing series. -/
def decBars : List Bar := (List.range 15).map decBar

/-- `decBars` after the indicator pipeline (again the facts proved
about this run never read the Gann level fields). -/
def decE : List Bar := process_indicators sqrtFlat decBars

/-- Baseline bar for the wave-position scenario. -/
def w51Bar : Bar :=
  { date := "d", open_ := 10, high := 10, low := 5, close := 10, volume := 0 }

/-- 51 bars whose maximum high sits at window index 0 and whose
minimum low sits at window index 30 (mid-tier of the DOWN branch). -/
def bars51 : List Bar :=
  [{ w51Bar with high := 20 }] ++ List.replicate 29 w51Bar ++
    [{ w51Bar with low := 1 }] ++ List.replicate 20 w51Bar

/-- One-bar series with close 9. -/
def bars9 : List Bar := [{ close := 9 }]

/-- The exact square root of the only close in `bars9`. -/
def sq9 : ℚ → ℚ := fun _ => 3

/-!
### General lemmas about the embedding
-/

theorem length_mapWith (f : ℕ → Bar → Bar) (l : List Bar) :
    (mapWith f l).length = l.length := by
  simp [mapWith]

theorem getD_mapWith (f : ℕ → Bar → Bar) (l : List Bar) (i : ℕ) (d : Bar)
    (h : i < l.length) :
    (mapWith f l).getD i d = f i (l.getD i default) := by
  have h2 : i < (mapWith f l).length := by simpa [length_mapWith]
  rw [List.getD_eq_getElem _ _ h2, List.getD_eq_getElem _ _ h]
  simp [mapWith, List.getElem?_eq_getElem h]

theorem leadsList_append (n l r : List Char) (h : leadsList n l = true) :
    leadsList n (l ++ r) = true := by
  induction n generalizing l with
  | nil => simp [leadsList]
  | cons a t ih =>
    cases l with
    | nil => simp [leadsList] at h
    | cons b u =>
      simp only [leadsList, Bool.and_eq_true] at h ⊢
      exact ⟨h.1, ih u h.2⟩

theorem leadsList_self_append (n r : List Char) : leadsList n (n ++ r) = true := by
  induction n with
  | nil => simp [leadsList]
  | cons a t ih => simp [leadsList, ih]

theorem occursIn_append_left (n l r : List Char) (h : occursIn n l = true) :
    occursIn n (l ++ r) = true := by
  induction l with
  | nil =>
    simp only [occursIn] at h
    cases n with
    | nil =>
      cases r with
      | nil => simp [occursIn, leadsList]
      | cons c t => simp [occursIn, leadsList]
    | cons a t => simp [leadsList] at h
  | cons c t ih =>
    simp only [occursIn, Bool.or_eq_true] at h ⊢
    rcases h with h | h
    · exact Or.inl (leadsList_append n (c :: t) r h)
    · exact Or.inr (ih h)

theorem occursIn_append_right (n l r : List Char) (h : occursIn n r = true) :
    occursIn n (l ++ r) = true := by
  induction l with
  | nil => simpa
  | cons c t ih =>
    simp only [List.cons_append, occursIn, Bool.or_eq_true]
    exact Or.inr ih

theorem occursIn_self_append (n post : List Char) : occursIn n (n ++ post) = true := by
  cases hnp : n ++ post with
  | nil =>
    have hn : n = [] := by
      cases n with
      | nil => rfl
      | cons a t => simp at hnp
    subst hn
    simp [occursIn, leadsList]
  | cons c t =>
    have hdef : occursIn n (c :: t) = (leadsList n (c :: t) || occursIn n t) := rfl
    rw [hdef, ← hnp, leadsList_self_append]
    simp

theorem str_data_append (a b : String) : (a ++ b).data = a.data ++ b.data := rfl

/-!
### Each agent emits exactly one of CALL, PUT, HOLD
-/

theorem base_signal_cases (b : Bar) :
    (base_confluence_agent b).signal = "CALL" ∨ (base_confluence_agent b).signal = "PUT" ∨
    (base_confluence_agent b).signal = "HOLD" := by
  simp only [base_confluence_agent]
  split_ifs <;> simp

theorem gann_signal_cases (b : Bar) :
    (gann_elliott_agent b).signal = "CALL" ∨ (gann_elliott_agent b).signal = "PUT" ∨
    (gann_elliott_agent b).signal = "HOLD" := by
  simp only [gann_elliott_agent]
  split_ifs <;> simp

theorem dqn_signal_cases (b : Bar) :
    (dqn_momentum_agent b).signal = "CALL" ∨ (dqn_momentum_agent b).signal = "PUT" ∨
    (dqn_momentum_agent b).signal = "HOLD" := by
  simp only [dqn_momentum_agent]
  split_ifs <;> simp

theorem wave3_signal_cases (b : Bar) :
    (three_wave_agent b).signal = "CALL" ∨ (three_wave_agent b).signal = "PUT" ∨
    (three_wave_agent b).signal = "HOLD" := by
  simp only [three_wave_agent]
  split_ifs <;> simp

theorem countP_three (l : List AgentSignal)
    (h : ∀ s ∈ l, s.signal = "CALL" ∨ s.signal = "PUT" ∨ s.signal = "HOLD") :
    l.countP (fun s => decide (s.signal = "CALL")) +
    l.countP (fun s => decide (s.signal = "PUT")) +
    l.countP (fun s => decide (s.signal = "HOLD")) = l.length := by
  induction l with
  | nil => simp
  | cons a t ih =>
    have ha := h a (by simp)
    have ht := ih (fun s hs => h s (List.mem_cons_of_mem a hs))
    simp only [List.countP_cons, List.length_cons]
    rcases ha with h1 | h1 | h1 <;> simp [h1] <;> omega

theorem sum_votes (b : Bar) :
    (signalsOf b).countP (fun s => decide (s.signal = "CALL")) +
    (signalsOf b).countP (fun s => decide (s.signal = "PUT")) +
    (signalsOf b).countP (fun s => decide (s.signal = "HOLD")) = 4 := by
  have h : ∀ s ∈ signalsOf b,
      s.signal = "CALL" ∨ s.signal = "PUT" ∨ s.signal = "HOLD" := by
    intro s hs
    simp only [signalsOf, List.mem_cons, List.not_mem_nil, or_false] at hs
    rcases hs with rfl | rfl | rfl | rfl
    · exact base_signal_cases b
    · exact gann_signal_cases b
    · exact dqn_signal_cases b
    · exact wave3_signal_cases b
  have := countP_three (signalsOf b) h
  simpa [signalsOf] using this

/-!
### The ATR field through the pipeline (used for the time-confluence
claim: `tag_confluence` skips bars whose ATR is undefined)
-/

theorem atr_assign_smas (l : List Bar) (i : ℕ) (d : Bar) (h : i < l.length) :
    ((assign_smas l).getD i d).atr = (l.getD i default).atr := by
  rw [assign_smas, getD_mapWith _ _ _ _ h]

theorem length_assign_smas (l : List Bar) : (assign_smas l).length = l.length := by
  simp [assign_smas, length_mapWith]

theorem atr_compute_rsi (l : List Bar) (n i : ℕ) (d : Bar) (h : i < l.length) :
    ((compute_rsi l n).getD i d).atr = (l.getD i default).atr := by
  rw [compute_rsi, getD_mapWith _ _ _ _ h]
  dsimp only
  split
  · rfl
  · split <;> rfl

theorem length_compute_rsi (l : List Bar) (n : ℕ) :
    (compute_rsi l n).length = l.length := by
  simp [compute_rsi, length_mapWith]

theorem atr_compute_bias (l : List Bar) (i : ℕ) (d : Bar) (h : i < l.length) :
    ((compute_bias l).getD i d).atr = (l.getD i default).atr := by
  rw [compute_bias, getD_mapWith _ _ _ _ h]
  rcases (l.getD i default).fast_sma with _ | f <;>
    rcases (l.getD i default).slow_sma with _ | s <;> rfl

theorem length_compute_bias (l : List Bar) : (compute_bias l).length = l.length := by
  simp [compute_bias, length_mapWith]

theorem atr_compute_gann (sq : ℚ → ℚ) (l : List Bar) (i : ℕ) (d : Bar)
    (h : i < l.length) :
    ((compute_gann_levels sq l).getD i d).atr = (l.getD i default).atr := by
  rw [compute_gann_levels, getD_mapWith _ _ _ _ h]

theorem length_compute_gann (sq : ℚ → ℚ) (l : List Bar) :
    (compute_gann_levels sq l).length = l.length := by
  simp [compute_gann_levels, length_mapWith]

theorem atr_compute_geometric (l : List Bar) (i : ℕ) (d : Bar) (h : i < l.length) :
    ((compute_geometric_levels l).getD i d).atr = (l.getD i default).atr := by
  rw [compute_geometric_levels, getD_mapWith _ _ _ _ h]
  split <;> rfl

theorem length_compute_geometric (l : List Bar) :
    (compute_geometric_levels l).length = l.length := by
  simp [compute_geometric_levels, length_mapWith]

theorem atr_compute_wave (l : List Bar) (i : ℕ) (d : Bar) (h : i < l.length) :
    ((compute_wave_position l).getD i d).atr = (l.getD i default).atr := by
  rw [compute_wave_position, getD_mapWith _ _ _ _ h]

theorem length_compute_wave (l : List Bar) :
    (compute_wave_position l).length = l.length := by
  simp [compute_wave_position, length_mapWith]

theorem atr_compute_atr_lt (l : List Bar) (n i : ℕ) (d : Bar) (h : i < l.length)
    (hi : i < n) : ((compute_atr l n).getD i d).atr = none := by
  rw [compute_atr, getD_mapWith _ _ _ _ h, if_pos hi]

theorem atr_compute_atr_ge (l : List Bar) (n i : ℕ) (d : Bar) (h : i < l.length)
    (hi : ¬ i < n) : ∃ v, ((compute_atr l n).getD i d).atr = some v := by
  rw [compute_atr, getD_mapWith _ _ _ _ h, if_neg hi]
  exact ⟨_, rfl⟩

theorem length_compute_atr (l : List Bar) (n : ℕ) :
    (compute_atr l n).length = l.length := by
  simp [compute_atr, length_mapWith]

theorem time_tag_confluence (l : List Bar) (tol : ℚ) (i : ℕ) (d : Bar)
    (h : i < l.length) :
    ((tag_confluence l tol).getD i d).time_confluence =
      (match (l.getD i default).atr with
       | none => 0
       | some _ => if cycleHit i then 1 else 0) := by
  rw [tag_confluence, getD_mapWith _ _ _ _ h]
  cases hA : (l.getD i default).atr with
  | none => simp [hA]
  | some a =>
    simp only [hA]
    cases hG : (l.getD i default).geo_level with
    | none =>
      simp only [hG]
      by_cases hc : cycleHit i <;> simp [hc]
    | some g =>
      simp only [hG]
      by_cases hc : cycleHit i <;>
        by_cases hp : g ≠ 0 ∧ |(l.getD i default).close - g| < a * (1/2) <;>
          simp [hc, hp] <;> split <;> rfl

/-- The Square-of-9 increments evaluate to `[1/4, 1/2, 3/4, 1, 5/4]`. -/
theorem gannIncs_eq : gannIncs = [1/4, 1/2, 3/4, 1, 5/4] := by decide

/-!
### The claims
-/

/-- Claim C1, counterexample.  The claim states that `target3` always
equals the stored `target2` times exactly 1.1 (CALL) or 0.9
(otherwise), "including when all four agents return HOLD".  On a bar
where all four agents hold (`holdBar`), `target3 = target2 = close =
100` while `target2 × 0.9 = 90`; and even with an active signal
(`rsiBar`), the stored `target3` is `round2(t2_raw × 0.9) = 87.5`
while the stored `target2 × 0.9 = 87.498`, because the source rounds
`target2` and `target3` independently of each other. -/
theorem C1_counterexample :
    ((calculate_consensus "d" "s" holdBar).consensus = "HOLD" ∧
     (calculate_consensus "d" "s" holdBar).hold_votes = 4 ∧
     (calculate_consensus "d" "s" holdBar).target3 = 100 ∧
     (calculate_consensus "d" "s" holdBar).target2 * (9/10) = 90 ∧
     (calculate_consensus "d" "s" holdBar).target3 ≠
       (calculate_consensus "d" "s" holdBar).target2 * (9/10)) ∧
    ((calculate_consensus "d" "s" rsiBar).consensus = "HOLD" ∧
     (calculate_consensus "d" "s" rsiBar).target3 = 175/2 ∧
     (calculate_consensus "d" "s" rsiBar).target2 * (9/10) = 43749/500 ∧
     (calculate_consensus "d" "s" rsiBar).target3 ≠
       (calculate_consensus "d" "s" rsiBar).target2 * (9/10)) := by decide

/-- Claim C1, amended.  When at least one agent is non-HOLD, there is
a pre-rounding average `t2` with stored `target2 = round2(t2)` and
stored `target3 = round2(t2 × 1.1)` for CALL consensus,
`round2(t2 × 0.9)` otherwise; when all four agents return HOLD the
1.1/0.9 scaling is not applied at all and `target3 = target2 =
round2(close)`. -/
theorem C1_target3_amended (d s : String) (b : Bar) :
    (activeSignals b ≠ [] → ∃ t2 : ℚ,
      (calculate_consensus d s b).target2 = pyRound2 t2 ∧
      (calculate_consensus d s b).target3 =
        pyRound2 (t2 * (if (calculate_consensus d s b).consensus = "CALL"
          then 11/10 else 9/10))) ∧
    (activeSignals b = [] →
      (calculate_consensus d s b).target2 = pyRound2 b.close ∧
      (calculate_consensus d s b).target3 = pyRound2 b.close) := by
  constructor
  · intro h
    refine ⟨((activeSignals b).map AgentSignal.target2).sum /
      ((activeSignals b).length : ℚ), ?_, ?_⟩
    · simp only [calculate_consensus]
      rw [if_neg h]
    · simp only [calculate_consensus]
      rw [if_neg h]
      split_ifs <;> rfl
  · intro h
    simp only [calculate_consensus]
    rw [if_pos h]
    exact ⟨rfl, rfl⟩

/-- Claim C1, witness: on `rsiBar` the active-signal branch of the
amended claim is realised. -/
theorem C1_witness :
    activeSignals rsiBar ≠ [] ∧
    (∃ t2 : ℚ,
      (calculate_consensus "d" "s" rsiBar).target2 = pyRound2 t2 ∧
      (calculate_consensus "d" "s" rsiBar).target3 =
        pyRound2 (t2 * (if (calculate_consensus "d" "s" rsiBar).consensus = "CALL"
          then 11/10 else 9/10))) :=
  ⟨by decide, (C1_target3_amended "d" "s" rsiBar).1 (by decide)⟩

/-- Claim C2, confirmed: for every ConsensusResult produced by
`calculate_consensus`, `approved` is true iff
`max(call_votes, put_votes, hold_votes) ≥ 3` and the consensus
direction is not HOLD. -/
theorem C2_approved_iff (d s : String) (b : Bar) :
    (calculate_consensus d s b).approved = true ↔
      3 ≤ max (calculate_consensus d s b).call_votes
          (max (calculate_consensus d s b).put_votes
            (calculate_consensus d s b).hold_votes) ∧
        (calculate_consensus d s b).consensus ≠ "HOLD" := by
  simp only [calculate_consensus]
  simp [Bool.and_eq_true, decide_eq_true_eq]

/-- Claim C3, counterexample.  Enriched bar 22 of `mixBars` (close
100.125, wave position "Unknown", time-confluence flag set) makes no
agent trigger fire, yet the Gann-Elliott agent returns confidence 5
(the unconditional `+5` time-confluence bonus), and the stored entry
is `round2(100.125) = 100.12 ≠ close`, contradicting "confidence
exactly 0 and entry = close". -/
theorem C3_counterexample :
    b22.time_confluence = 1 ∧
    (gann_elliott_agent b22).signal = "HOLD" ∧
    (gann_elliott_agent b22).confidence = 5 ∧
    (gann_elliott_agent b22).entry = 2503/25 ∧
    b22.close = 801/8 ∧
    (gann_elliott_agent b22).entry ≠ b22.close := by decide

/-- Claim C3, amended.  An agent whose trigger does not fire (signal
HOLD) returns entry = stop = target1 = target2 = close rounded to two
decimals; the confidence is 0 for Base Confluence, DQN/Momentum and
3-Wave, while Gann-Elliott returns 5 when the bar's time-confluence
flag is set and 0 otherwise. -/
theorem C3_hold_defaults (b : Bar) :
    ((base_confluence_agent b).signal = "HOLD" →
      (base_confluence_agent b).confidence = 0 ∧
      (base_confluence_agent b).entry = pyRound2 b.close ∧
      (base_confluence_agent b).stop = pyRound2 b.close ∧
      (base_confluence_agent b).target1 = pyRound2 b.close ∧
      (base_confluence_agent b).target2 = pyRound2 b.close) ∧
    ((dqn_momentum_agent b).signal = "HOLD" →
      (dqn_momentum_agent b).confidence = 0 ∧
      (dqn_momentum_agent b).entry = pyRound2 b.close ∧
      (dqn_momentum_agent b).stop = pyRound2 b.close ∧
      (dqn_momentum_agent b).target1 = pyRound2 b.close ∧
      (dqn_momentum_agent b).target2 = pyRound2 b.close) ∧
    ((three_wave_agent b).signal = "HOLD" →
      (three_wave_agent b).confidence = 0 ∧
      (three_wave_agent b).entry = pyRound2 b.close ∧
      (three_wave_agent b).stop = pyRound2 b.close ∧
      (three_wave_agent b).target1 = pyRound2 b.close ∧
      (three_wave_agent b).target2 = pyRound2 b.close) ∧
    ((gann_elliott_agent b).signal = "HOLD" →
      (gann_elliott_agent b).confidence = (if b.time_confluence ≠ 0 then 5 else 0) ∧
      (gann_elliott_agent b).entry = pyRound2 b.close ∧
      (gann_elliott_agent b).stop = pyRound2 b.close ∧
      (gann_elliott_agent b).target1 = pyRound2 b.close ∧
      (gann_elliott_agent b).target2 = pyRound2 b.close) := by
  refine ⟨?_, ?_, ?_, ?_⟩
  · simp only [base_confluence_agent]
    split_ifs <;> simp_all
  · simp only [dqn_momentum_agent]
    split_ifs <;> simp_all
  · simp only [three_wave_agent]
    split_ifs <;> simp_all
  · simp only [gann_elliott_agent]
    split_ifs <;> simp_all

/-- Claim C3, witness: on `cbar` (time-confluence flag set, no
trigger) the Gann-Elliott agent holds with confidence 5 and the Base
Confluence agent holds with confidence 0. -/
theorem C3_witness :
    (gann_elliott_agent cbar).signal = "HOLD" ∧
    (gann_elliott_agent cbar).confidence = 5 ∧
    (base_confluence_agent cbar).signal = "HOLD" ∧
    (base_confluence_agent cbar).confidence = 0 :=
  ⟨by decide,
   by
    have hg := (C3_hold_defaults cbar).2.2.2 (by decide)
    simpa [cbar] using hg.1,
   by decide,
   ((C3_hold_defaults cbar).1 (by decide)).1⟩

/-- Claim C4, counterexample.  On the 20-bar flat series the claim
predicts RSI 50 on every bar, all agents HOLD and tier NONE; the code
instead yields RSI 100 from bar 14 on (`avg_loss == 0` maps to 100),
so the DQN/Momentum agent votes PUT there, and the confluence tier is
SUPER (3 HOLD votes), never NONE. -/
theorem C4_counterexample :
    (flatE.getD 14 default).rsi = some 100 ∧
    (flatE.getD 14 default).rsi ≠ some 50 ∧
    (dqn_momentum_agent (flatE.getD 14 default)).signal = "PUT" ∧
    (calculate_consensus "d" "SPY" (flatE.getD 14 default)).confluence_level =
      "SUPER" ∧
    (calculate_consensus "d" "SPY" (flatE.getD 14 default)).confluence_level ≠
      "NONE" := by decide

/-- Claim C4, amended.  On the 20-bar flat series (all OHLC 100.00):
bias is undefined on the first 19 bars (and PUT on bar 19); RSI is 50
on bars 0-13 and 100 on bars 14-19; Base Confluence, Gann-Elliott and
3-Wave hold everywhere while DQN/Momentum holds on bars 0-13 and votes
PUT on bars 14-19; every bar's consensus is HOLD with approved =
false, and the confluence tier is ULTRA on bars 0-13 (4 HOLD votes)
and SUPER on bars 14-19 (3 HOLD votes) — never NONE. -/
theorem C4_flat_series :
    (∀ i < 19, (flatE.getD i default).bias = none) ∧
    (flatE.getD 19 default).bias = some "PUT" ∧
    (∀ i < 20, (flatE.getD i default).rsi = some (if i < 14 then 50 else 100)) ∧
    (∀ i < 20,
      (calculate_consensus "d" "SPY" (flatE.getD i default)).signals.map
          AgentSignal.signal =
        ["HOLD", "HOLD", if i < 14 then "HOLD" else "PUT", "HOLD"]) ∧
    (∀ i < 20,
      (calculate_consensus "d" "SPY" (flatE.getD i default)).consensus = "HOLD" ∧
      (calculate_consensus "d" "SPY" (flatE.getD i default)).approved = false ∧
      (calculate_consensus "d" "SPY" (flatE.getD i default)).confluence_level =
        (if i < 14 then "ULTRA" else "SUPER")) := by decide

/-- Claim C5, confirmed: the confluence tier is ULTRA for
`max votes ≥ 4`, SUPER for 3, PARTIAL for 2 and NONE otherwise, and a
2-2 CALL/PUT tie yields tier PARTIAL with consensus HOLD. -/
theorem C5_confluence_tiers (d s : String) (b : Bar) :
    ((calculate_consensus d s b).confluence_level =
      (if 4 ≤ max (calculate_consensus d s b).call_votes
              (max (calculate_consensus d s b).put_votes
                (calculate_consensus d s b).hold_votes) then "ULTRA"
       else if 3 ≤ max (calculate_consensus d s b).call_votes
              (max (calculate_consensus d s b).put_votes
                (calculate_consensus d s b).hold_votes) then "SUPER"
       else if 2 ≤ max (calculate_consensus d s b).call_votes
              (max (calculate_consensus d s b).put_votes
                (calculate_consensus d s b).hold_votes) then "PARTIAL"
       else "NONE")) ∧
    ((calculate_consensus d s b).call_votes = 2 →
      (calculate_consensus d s b).put_votes = 2 →
      (calculate_consensus d s b).confluence_level = "PARTIAL" ∧
        (calculate_consensus d s b).consensus = "HOLD") := by
  constructor
  · simp only [calculate_consensus]
  · intro h1 h2
    have h3 := sum_votes b
    simp only [calculate_consensus] at h1 h2 ⊢
    have h4 : (signalsOf b).countP (fun s => decide (s.signal = "HOLD")) = 0 := by
      omega
    rw [h1, h2, h4]
    norm_num

/-- Claim C5, witness: `tieBar` realises the 2-2 tie, with tier
PARTIAL and consensus HOLD. -/
theorem C5_witness :
    (calculate_consensus "d" "s" tieBar).call_votes = 2 ∧
    (calculate_consensus "d" "s" tieBar).put_votes = 2 ∧
    ((calculate_consensus "d" "s" tieBar).confluence_level = "PARTIAL" ∧
      (calculate_consensus "d" "s" tieBar).consensus = "HOLD") :=
  ⟨by decide, by decide,
   (C5_confluence_tiers "d" "s" tieBar).2 (by decide) (by decide)⟩

/-- Claim C6, confirmed: every ConsensusResult's vote tally satisfies
`call_votes + put_votes + hold_votes = 4`. -/
theorem C6_vote_tally (d s : String) (b : Bar) :
    (calculate_consensus d s b).call_votes + (calculate_consensus d s b).put_votes +
      (calculate_consensus d s b).hold_votes = 4 := by
  simp only [calculate_consensus]
  exact sum_votes b

/-- Claim C7, counterexample.  Bar 0 of the flat series satisfies the
cycle condition (`0 % 11 = 0 ≤ 2`) yet its time-confluence flag is 0,
because `tag_confluence` skips every bar whose ATR is undefined — the
flag is not the pure index condition the claim states. -/
theorem C7_counterexample :
    (flatE.getD 0 default).time_confluence = 0 ∧ 0 % 11 ≤ 2 ∧ 11 ∈ GANN_CYCLES := by
  decide

/-- Claim C7, amended.  After the pipeline, `time_confluence = 1` iff
the bar's ATR is defined (index ≥ ATR_LENGTH = 14) **and** some cycle
`c` in GANN_CYCLES has `i % c ≤ 2` or `i % c ≥ c − 2`; bars with
undefined ATR always carry flag 0. -/
theorem C7_time_confluence_amended (sq : ℚ → ℚ) (bars : List Bar) (i : ℕ)
    (h : i < bars.length) :
    ((process_indicators sq bars).getD i default).time_confluence = 1 ↔
      ATR_LENGTH ≤ i ∧ ∃ c ∈ GANN_CYCLES, i % c ≤ 2 ∨ c - 2 ≤ i % c := by
  have h1 : i < (compute_atr bars ATR_LENGTH).length := by
    rw [length_compute_atr]; exact h
  have h2 : i < (assign_smas (compute_atr bars ATR_LENGTH)).length := by
    rw [length_assign_smas]; exact h1
  have h3 : i < (compute_rsi (assign_smas (compute_atr bars ATR_LENGTH))
      RSI_LENGTH).length := by
    rw [length_compute_rsi]; exact h2
  have h4 : i < (compute_bias (compute_rsi (assign_smas (compute_atr bars ATR_LENGTH))
      RSI_LENGTH)).length := by
    rw [length_compute_bias]; exact h3
  have h5 : i < (compute_gann_levels sq (compute_bias (compute_rsi
      (assign_smas (compute_atr bars ATR_LENGTH)) RSI_LENGTH))).length := by
    rw [length_compute_gann]; exact h4
  have h6 : i < (compute_geometric_levels (compute_gann_levels sq (compute_bias
      (compute_rsi (assign_smas (compute_atr bars ATR_LENGTH)) RSI_LENGTH)))).length := by
    rw [length_compute_geometric]; exact h5
  have h7 : i < (compute_wave_position (compute_geometric_levels
      (compute_gann_levels sq (compute_bias (compute_rsi
        (assign_smas (compute_atr bars ATR_LENGTH)) RSI_LENGTH))))).length := by
    rw [length_compute_wave]; exact h6
  have hcyc : cycleHit i = true ↔
      (∃ c ∈ GANN_CYCLES, i % c ≤ 2 ∨ c - 2 ≤ i % c) := by
    simp only [cycleHit, List.any_eq_true, Bool.or_eq_true, decide_eq_true_eq]
    constructor <;> rintro ⟨c, hcmem, hcond⟩ <;> exact ⟨c, hcmem, by omega⟩
  simp only [process_indicators]
  rw [time_tag_confluence _ _ _ _ h7,
      atr_compute_wave _ _ _ h6,
      atr_compute_geometric _ _ _ h5,
      atr_compute_gann _ _ _ _ h4,
      atr_compute_bias _ _ _ h3,
      atr_compute_rsi _ _ _ _ h2,
      atr_assign_smas _ _ _ h1]
  by_cases hi : i < ATR_LENGTH
  · rw [atr_compute_atr_lt _ _ _ _ h hi]
    dsimp only
    constructor
    · intro h0
      exact absurd h0 (by decide)
    · rintro ⟨h14, -⟩
      omega
  · obtain ⟨v, hv⟩ := atr_compute_atr_ge bars ATR_LENGTH i default h hi
    rw [hv]
    by_cases hcy : cycleHit i = true
    · simp only [hcy, if_true]
      constructor
      · intro _
        exact ⟨by omega, hcyc.mp hcy⟩
      · intro _
        trivial
    · simp only [hcy, if_false]
      constructor
      · intro h0
        exact absurd h0 (by decide)
      · rintro ⟨h14, hex⟩
        exact absurd (hcyc.mpr hex) hcy

/-- Claim C7, witness: at index 14 of the flat series the amended
equivalence is realised (both sides false: 14 mod each cycle misses
the window). -/
theorem C7_witness :
    14 < flatBars.length ∧
    (((process_indicators sqrtFlat flatBars).getD 14 default).time_confluence = 1 ↔
      ATR_LENGTH ≤ 14 ∧ ∃ c ∈ GANN_CYCLES, 14 % c ≤ 2 ∨ c - 2 ≤ 14 % c) :=
  ⟨by decide, C7_time_confluence_amended sqrtFlat flatBars 14 (by decide)⟩

/-- Claim C8, counterexample.  A strictly decreasing series gives bar
14 an RSI of exactly 0 (< 30), yet the DQN/Momentum agent returns
HOLD, not CALL: the source's `rsi = bar.rsi or 50` treats the float
0.0 as missing and replaces it with 50. -/
theorem C8_counterexample :
    (decE.getD 14 default).rsi = some 0 ∧ (0:ℚ) < 30 ∧
    (dqn_momentum_agent (decE.getD 14 default)).signal = "HOLD" ∧
    (dqn_momentum_agent (decE.getD 14 default)).signal ≠ "CALL" := by decide

/-- Claim C8, amended.  For every bar whose RSI is defined, nonzero
and strictly below 30, the DQN/Momentum agent returns CALL with
confidence 71 and a single reason string containing "oversold" and the
formatted RSI value. -/
theorem C8_oversold (b : Bar) (r : ℚ) (h1 : b.rsi = some r) (h2 : r ≠ 0)
    (h3 : r < 30) :
    (dqn_momentum_agent b).signal = "CALL" ∧
    (dqn_momentum_agent b).confidence = 71 ∧
    (dqn_momentum_agent b).reasons = ["RSI oversold (" ++ fmtF0 r ++ ")"] ∧
    containsStr ("RSI oversold (" ++ fmtF0 r ++ ")") "oversold" = true ∧
    containsStr ("RSI oversold (" ++ fmtF0 r ++ ")") (fmtF0 r) = true := by
  have hr : pyOr b.rsi 50 = r := by
    rw [h1, pyOr]
    simp [h2]
  have hcon1 : containsStr ("RSI oversold (" ++ fmtF0 r ++ ")") "oversold" = true := by
    rw [containsStr, str_data_append, str_data_append]
    apply occursIn_append_left
    apply occursIn_append_left
    decide
  have hcon2 : containsStr ("RSI oversold (" ++ fmtF0 r ++ ")") (fmtF0 r) = true := by
    rw [containsStr, str_data_append, str_data_append]
    rw [List.append_assoc]
    apply occursIn_append_right
    exact occursIn_self_append _ _
  refine ⟨?_, ?_, ?_, hcon1, hcon2⟩ <;>
    · simp only [dqn_momentum_agent, hr]
      rw [if_pos h3]

/-- Claim C8, witness: RSI exactly 25 yields CALL, confidence 71 and
the "RSI oversold (25)" reason. -/
theorem C8_witness :
    c8bar.rsi = some 25 ∧ (25:ℚ) ≠ 0 ∧ (25:ℚ) < 30 ∧
    ((dqn_momentum_agent c8bar).signal = "CALL" ∧
     (dqn_momentum_agent c8bar).confidence = 71 ∧
     (dqn_momentum_agent c8bar).reasons = ["RSI oversold (" ++ fmtF0 25 ++ ")"] ∧
     containsStr ("RSI oversold (" ++ fmtF0 25 ++ ")") "oversold" = true ∧
     containsStr ("RSI oversold (" ++ fmtF0 25 ++ ")") (fmtF0 25) = true) :=
  ⟨by decide, by decide, by decide,
   C8_oversold c8bar 25 (by decide) (by decide) (by decide)⟩

/-- Claim C9, counterexample.  On `bars51` at index 50 the DOWN case
holds with the minimum-low index (30) in the mid tier (between 50% and
80% of the 51-bar window), and the assigned label is "Wave 3 DOWN",
not the claim's "Wave 2 DOWN" (the asymmetry sits in the early tier,
which is labelled "Wave 2 DOWN" where UP uses "Wave 1 UP"). -/
theorem C9_counterexample :
    (waveWindow bars51 50).length = 51 ∧
    waveMaxIdx bars51 50 = 0 ∧ waveMinIdx bars51 50 = 30 ∧
    ((51:ℚ) * (5/10) < 30) ∧ ¬ ((51:ℚ) * (8/10) < 30) ∧
    ((compute_wave_position bars51).getD 50 default).wave_position =
      some "Wave 3 DOWN" ∧
    ((compute_wave_position bars51).getD 50 default).wave_position ≠
      some "Wave 2 DOWN" := by decide

/-- Claim C9, amended.  In the DOWN case (max-high index not after the
min-low index) the mid tier — min-low index above 50% but not above
80% of the window — is labelled "Wave 3 DOWN", matching the UP case's
mid-tier "Wave 3 UP"; the asymmetric label is the early tier ("Wave 2
DOWN" vs "Wave 1 UP"), not the mid tier. -/
theorem C9_wave_mid_tier (bars : List Bar) (i : ℕ) (h50 : 50 ≤ i) :
    (waveMaxIdx bars i ≤ waveMinIdx bars i →
      ((waveWindow bars i).length : ℚ) * (5/10) < (waveMinIdx bars i : ℚ) →
      ¬ (((waveWindow bars i).length : ℚ) * (8/10) < (waveMinIdx bars i : ℚ)) →
      wavePositionAt bars i = "Wave 3 DOWN") ∧
    (waveMinIdx bars i < waveMaxIdx bars i →
      ((waveWindow bars i).length : ℚ) * (5/10) < (waveMaxIdx bars i : ℚ) →
      ¬ (((waveWindow bars i).length : ℚ) * (8/10) < (waveMaxIdx bars i : ℚ)) →
      wavePositionAt bars i = "Wave 3 UP") := by
  constructor
  · intro h1 h2 h3
    rw [wavePositionAt, if_neg (by omega)]
    rw [if_neg (by omega), if_neg h3, if_pos h2]
  · intro h1 h2 h3
    rw [wavePositionAt, if_neg (by omega)]
    rw [if_pos h1, if_neg h3, if_pos h2]

/-- Claim C9, witness: the DOWN mid tier is realised by `bars51` at
index 50. -/
theorem C9_witness :
    waveMaxIdx bars51 50 ≤ waveMinIdx bars51 50 ∧
    ((waveWindow bars51 50).length : ℚ) * (5/10) < (waveMinIdx bars51 50 : ℚ) ∧
    ¬ (((waveWindow bars51 50).length : ℚ) * (8/10) < (waveMinIdx bars51 50 : ℚ)) ∧
    wavePositionAt bars51 50 = "Wave 3 DOWN" :=
  ⟨by decide, by decide, by decide,
   (C9_wave_mid_tier bars51 50 (by decide)).1 (by decide) (by decide) (by decide)⟩

/-- Claim C10, confirmed: for a bar with positive close,
`compute_gann_levels` assigns both Gann fields (non-None); the
resistance-candidate list always has five entries so its `close×1.05`
fallback is unreachable, and the support-candidate list is empty —
taking the `close×0.95` fallback — exactly when `sqrt(close) ≤ 0.25`
(the square root passed as `sq`, characterised by the hypotheses). -/
theorem C10_gann_levels (sq : ℚ → ℚ) (bars : List Bar) (i : ℕ) (h : i < bars.length)
    (h0 : 0 < (bars.getD i default).close)
    (hs : 0 ≤ sq ((bars.getD i default).close))
    (hsq : sq ((bars.getD i default).close) * sq ((bars.getD i default).close) =
      (bars.getD i default).close) :
    (((compute_gann_levels sq bars).getD i default).gann_support).isSome = true ∧
    (((compute_gann_levels sq bars).getD i default).gann_resistance).isSome = true ∧
    resCandidates (sq ((bars.getD i default).close)) ≠ [] ∧
    (supCandidates (sq ((bars.getD i default).close)) = [] ↔
      sq ((bars.getD i default).close) ≤ 1/4) ∧
    (sq ((bars.getD i default).close) ≤ 1/4 →
      ((compute_gann_levels sq bars).getD i default).gann_support =
        some ((bars.getD i default).close * (95/100))) := by
  have hsup : supCandidates (sq ((bars.getD i default).close)) = [] ↔
      sq ((bars.getD i default).close) ≤ 1/4 := by
    set s := sq ((bars.getD i default).close) with hsdef
    constructor
    · intro he
      by_contra hgt
      push_neg at hgt
      have hmem : ((1:ℚ)/4) ∈ gannIncs.filter (fun inc => decide (inc < s)) := by
        rw [gannIncs_eq]
        simp only [List.mem_filter, decide_eq_true_eq]
        exact ⟨by norm_num, hgt⟩
      simp only [supCandidates, List.map_eq_nil_iff] at he
      rw [he] at hmem
      simp at hmem
    · intro hle
      simp only [supCandidates, List.map_eq_nil_iff, List.filter_eq_nil_iff]
      intro a ha
      rw [gannIncs_eq] at ha
      simp only [List.mem_cons, List.not_mem_nil, or_false] at ha
      simp only [decide_eq_true_eq, not_lt]
      rcases ha with rfl | rfl | rfl | rfl | rfl <;> linarith
  refine ⟨?_, ?_, ?_, hsup, ?_⟩
  · rw [compute_gann_levels, getD_mapWith _ _ _ _ h]
    rfl
  · rw [compute_gann_levels, getD_mapWith _ _ _ _ h]
    rfl
  · simp [resCandidates, gannIncs_eq]
  · intro hle
    rw [compute_gann_levels, getD_mapWith _ _ _ _ h]
    dsimp only
    rw [hsup.mpr hle]
    rfl

/-- Claim C10, witness: a one-bar series with close 9 and exact square
root 3 (> 1/4: the support fallback is not taken). -/
theorem C10_witness :
    (0 < bars9.length) ∧ (0 < (bars9.getD 0 default).close) ∧
    (0 ≤ sq9 ((bars9.getD 0 default).close)) ∧
    (sq9 ((bars9.getD 0 default).close) * sq9 ((bars9.getD 0 default).close) =
      (bars9.getD 0 default).close) ∧
    ((((compute_gann_levels sq9 bars9).getD 0 default).gann_support).isSome = true ∧
     (((compute_gann_levels sq9 bars9).getD 0 default).gann_resistance).isSome = true ∧
     resCandidates (sq9 ((bars9.getD 0 default).close)) ≠ [] ∧
     (supCandidates (sq9 ((bars9.getD 0 default).close)) = [] ↔
       sq9 ((bars9.getD 0 default).close) ≤ 1/4) ∧
     (sq9 ((bars9.getD 0 default).close) ≤ 1/4 →
       ((compute_gann_levels sq9 bars9).getD 0 default).gann_support =
         some ((bars9.getD 0 default).close * (95/100)))) :=
  ⟨by decide, by decide, by decide, by decide,
   C10_gann_levels sq9 bars9 0 (by decide) (by decide) (by decide) (by decide)⟩

end Q5D
